import Mathlib

/-!
Verification of the sunxi GPADC/THS driver (drivers/iio/adc/sun4i-gpadc-iio.c)
against its natural-language specification.

The driver is shallowly embedded: the hardware register file is a map from
register offsets to 32-bit values, regmap transactions carry an error oracle
so that transport failures can be injected, and the control-flow of each
driver function is translated statement by statement.  Side effects that are
relevant to the specified properties (power claims, locking, interrupt
arm/disarm, settling delays, the completion wait) are recorded as an event
trace.
-/

/-- Register file of the device: offset → 32-bit value. -/
def RegState : Type := Nat → Nat

/-- Write a 32-bit value to a register (the value is truncated to 32 bits). -/
def regWrite32 (s : RegState) (addr v : Nat) : RegState :=
  fun a => if a = addr then v % 2 ^ 32 else s a

/-- Modelled from the spec: register-map constants of the header
include/linux/iio/adc/sun4i-gpadc.h, which is part of this repository but not
under src/ (§6 "Register map": control0, control1, control3, interrupt
enable/status, fifo-control, voltage-data, temperature-data registers). -/
def SUN4I_GPADC_CTRL0 : Nat := 0x00

/-- Modelled from the spec: control1 register offset (mode/channel select). -/
def SUN4I_GPADC_CTRL1 : Nat := 0x04

/-- Modelled from the spec: control3 register offset (digital filter). -/
def SUN4I_GPADC_CTRL3 : Nat := 0x0c

/-- Modelled from the spec: interrupt/fifo-control register offset. -/
def SUN4I_GPADC_INT_FIFOC : Nat := 0x10

/-- Modelled from the spec: periodic temperature sampling register offset. -/
def SUN4I_GPADC_TPR : Nat := 0x18

/-- Modelled from the spec: temperature-data register offset. -/
def SUN4I_GPADC_TEMP_DATA : Nat := 0x20

/-- Modelled from the spec: voltage(fifo)-data register offset. -/
def SUN4I_GPADC_DATA : Nat := 0x24

/-- Modelled from the spec: control0 acquisition clock divider bit-field. -/
def SUN4I_GPADC_CTRL0_ADC_CLK_DIVIDER (x : Nat) : Nat := (x &&& 0x3) <<< 20

/-- Modelled from the spec: control0 FS divider bit-field. -/
def SUN4I_GPADC_CTRL0_FS_DIV (x : Nat) : Nat := (x &&& 0xf) <<< 16

/-- Modelled from the spec: control0 acquisition-time bit-field. -/
def SUN4I_GPADC_CTRL0_T_ACQ (x : Nat) : Nat := x &&& 0xffff

/-- Modelled from the spec: control1 touchscreen-mode-enable bit (sun4i). -/
def SUN4I_GPADC_CTRL1_TP_MODE_EN : Nat := 2 ^ 4

/-- Modelled from the spec: control1 ADC-select bit (sun4i). -/
def SUN4I_GPADC_CTRL1_TP_ADC_SELECT : Nat := 2 ^ 3

/-- Modelled from the spec: control1 channel-select mask (sun4i). -/
def SUN4I_GPADC_CTRL1_ADC_CHAN_MASK : Nat := 0x7

/-- Modelled from the spec: control1 channel-select encoding (sun4i). -/
def SUN4I_GPADC_CTRL1_ADC_CHAN_SELECT (x : Nat) : Nat := x &&& 0x7

/-- Modelled from the spec: control1 touchscreen-mode-enable bit (sun6i). -/
def SUN6I_GPADC_CTRL1_TP_MODE_EN : Nat := 2 ^ 5

/-- Modelled from the spec: control1 ADC-select bit (sun6i). -/
def SUN6I_GPADC_CTRL1_TP_ADC_SELECT : Nat := 2 ^ 4

/-- Modelled from the spec: control1 channel-select mask (sun6i). -/
def SUN6I_GPADC_CTRL1_ADC_CHAN_MASK : Nat := 0xf

/-- Modelled from the spec: control1 channel-select encoding (sun6i, one-hot). -/
def SUN6I_GPADC_CTRL1_ADC_CHAN_SELECT (x : Nat) : Nat := 0xf &&& (2 ^ x)

/-- Modelled from the spec: chopper temperature-enable bit (sun8i-a33). -/
def SUN8I_A33_GPADC_CTRL1_CHOP_TEMP_EN : Nat := 2 ^ 8

/-- Modelled from the spec: control3 filter-enable bit. -/
def SUN4I_GPADC_CTRL3_FILTER_EN : Nat := 2 ^ 2

/-- Modelled from the spec: control3 filter-type bit-field. -/
def SUN4I_GPADC_CTRL3_FILTER_TYPE (x : Nat) : Nat := x &&& 0x3

/-- Modelled from the spec: TPR periodic temperature-sampling enable bit. -/
def SUN4I_GPADC_TPR_TEMP_ENABLE : Nat := 2 ^ 16

/-- Modelled from the spec: TPR temperature-sampling period bit-field. -/
def SUN4I_GPADC_TPR_TEMP_PERIOD (x : Nat) : Nat := x &&& 0xffff

/-- Modelled from the spec: fifo-control temperature-interrupt-enable bit. -/
def SUN4I_GPADC_INT_FIFOC_TEMP_IRQ_EN : Nat := 2 ^ 18

/-- Modelled from the spec: fifo-control trigger-level bit-field. -/
def SUN4I_GPADC_INT_FIFOC_TP_FIFO_TRIG_LEVEL (x : Nat) : Nat :=
  (x &&& 0x1f) <<< 8

/-- Modelled from the spec: fifo-control fifo-flush bit. -/
def SUN4I_GPADC_INT_FIFOC_TP_FIFO_FLUSH : Nat := 2 ^ 4

/-- Modelled from the spec: sun8i-h3 THS control0 register offset. -/
def SUN8I_H3_THS_CTRL0 : Nat := 0x00

/-- Modelled from the spec: sun8i-h3 THS control2 register offset. -/
def SUN8I_H3_THS_CTRL2 : Nat := 0x40

/-- Modelled from the spec: sun8i-h3 THS interrupt-enable register offset. -/
def SUN8I_H3_THS_INTC : Nat := 0x44

/-- Modelled from the spec: sun8i-h3 THS interrupt-status register offset. -/
def SUN8I_H3_THS_STAT : Nat := 0x48

/-- Modelled from the spec: sun8i-h3 THS filter register offset. -/
def SUN8I_H3_THS_FILTER : Nat := 0x70

/-- Modelled from the spec: sun8i-h3 THS sensor-0 data register offset. -/
def SUN8I_H3_THS_TDATA0 : Nat := 0x80

/-- Modelled from the spec: sun8i-h3 THS second acquisition-time bit-field. -/
def SUN8I_H3_THS_ACQ1 (x : Nat) : Nat := (x &&& 0xffff) <<< 16

/-- Modelled from the spec: sun8i-h3 THS sensor-0 temperature-sense enable bit. -/
def SUN8I_H3_THS_TEMP_SENSE_EN0 : Nat := 2 ^ 0

/-- Modelled from the spec: sun8i-h3 THS sensor-0 data-interrupt enable bit. -/
def SUN8I_H3_THS_INTC_TDATA_IRQ_EN0 : Nat := 2 ^ 8

/-- Modelled from the spec: sun8i-h3 THS periodic sampling period bit-field. -/
def SUN8I_H3_THS_TEMP_PERIOD (x : Nat) : Nat := (x &&& 0xfffff) <<< 12

/-- Modelled from the spec: sun8i-h3 THS sensor-0 data-interrupt status bit. -/
def SUN8I_H3_THS_INTS_TDATA_IRQ_0 : Nat := 2 ^ 8

/-- Modelled from the spec: request tag for a voltage (fifo-data) measurement. -/
def SUN4I_GPADC_IRQ_FIFO_DATA : Nat := 0

/-- Modelled from the spec: request tag for a temperature measurement. -/
def SUN4I_GPADC_IRQ_TEMP_DATA : Nat := 1

/-- Modelled from the spec: errno ETIMEDOUT, returned negated on timeout. -/
def ETIMEDOUT : Int := 110

/-- Modelled from the spec: errno EPROBE_DEFER (DeferredBinding). -/
def EPROBE_DEFER : Int := 517

/-- Modelled from the spec: errno EIO, used here to inject a transport fault. -/
def EIO_errno : Int := 5

/-- Modelled from the spec: irqreturn_t IRQ_HANDLED. -/
def IRQ_HANDLED : Int := 1

/-- A regmap with an injectable transport-error oracle: wErr gives the return
code of a write of a value to an offset, rErr the return code of a read.
Code 0 is success; a failed write leaves the register file unchanged. -/
structure Regmap where
  regs : RegState
  wErr : Nat → Nat → Int
  rErr : Nat → Int

/-- regmap_write: returns the transport code and the updated map. -/
def regmap_write (rm : Regmap) (addr v : Nat) : Int × Regmap :=
  let e := rm.wErr addr v
  if e = 0 then (0, { rm with regs := regWrite32 rm.regs addr v }) else (e, rm)

/-- regmap_read: returns the transport code and the value at the offset. -/
def regmap_read (rm : Regmap) (addr : Nat) : Int × Nat :=
  (rm.rErr addr, rm.regs addr)

/-- Observable side effects of a measurement request, in program order. -/
inductive Ev where
  | lock : Ev
  | unlock : Ev
  | pmGetSync : Ev
  | pmPutAutosuspend : Ev
  | pmMarkLastBusy : Ev
  | reinitCompletion : Ev
  | rmwrite : Nat → Nat → Ev
  | rmread : Nat → Ev
  | mdelay : Nat → Ev
  | enableIrq : Ev
  | disableIrq : Ev
  | waitCompletion : Nat → Bool → Ev
  deriving DecidableEq, Repr

/-- Tag selecting which ths_resume hook a variant table carries (the C struct
stores a function pointer; the tag plus the dispatcher below is its shallow
embedding). -/
inductive ResumeHook where
  | sun4iResume : ResumeHook
  | sun8iH3Resume : ResumeHook
  deriving DecidableEq, Repr

/-- Tag selecting which ths_suspend hook a variant table carries. -/
inductive SuspendHook where
  | sun4iSuspend : SuspendHook
  | sun8iH3Suspend : SuspendHook
  deriving DecidableEq, Repr

/-- Tag selecting which ths interrupt thread a variant table carries. -/
inductive IrqThreadHook where
  | dataIrqHandler : IrqThreadHook
  | sunx8iH3IrqThread : IrqThreadHook
  | noThread : IrqThreadHook
  deriving DecidableEq, Repr

/-- struct gpadc_data: the immutable per-variant constant table. -/
structure GpadcData where
  temp_offset : Int
  temp_scale : Int
  tp_mode_en : Nat
  tp_adc_select : Nat
  adc_chan_select : Nat → Nat
  adc_chan_mask : Nat
  adc_channel : Bool
  ths_irq_thread : IrqThreadHook
  ths_suspend : SuspendHook
  ths_resume : ResumeHook
  support_irq : Bool
  has_bus_clk : Bool
  has_bus_rst : Bool
  has_mod_clk : Bool
  temp_data_base : Nat
  sensor_count : Nat
  supports_nvmem : Bool
  ths_irq_clear : Nat

/-- sun4i_gpadc_chan_select. -/
def sun4i_gpadc_chan_select (chan : Nat) : Nat :=
  SUN4I_GPADC_CTRL1_ADC_CHAN_SELECT chan

/-- sun6i_gpadc_chan_select. -/
def sun6i_gpadc_chan_select (chan : Nat) : Nat :=
  SUN6I_GPADC_CTRL1_ADC_CHAN_SELECT chan

/-- sun4i_gpadc_data variant table. -/
def sun4i_gpadc_data : GpadcData where
  temp_offset := -1932
  temp_scale := 133
  tp_mode_en := SUN4I_GPADC_CTRL1_TP_MODE_EN
  tp_adc_select := SUN4I_GPADC_CTRL1_TP_ADC_SELECT
  adc_chan_select := sun4i_gpadc_chan_select
  adc_chan_mask := SUN4I_GPADC_CTRL1_ADC_CHAN_MASK
  adc_channel := true
  ths_irq_thread := IrqThreadHook.dataIrqHandler
  ths_suspend := SuspendHook.sun4iSuspend
  ths_resume := ResumeHook.sun4iResume
  support_irq := true
  has_bus_clk := false
  has_bus_rst := false
  has_mod_clk := false
  temp_data_base := SUN4I_GPADC_TEMP_DATA
  sensor_count := 1
  supports_nvmem := false
  ths_irq_clear := 0

/-- sun5i_gpadc_data variant table. -/
def sun5i_gpadc_data : GpadcData where
  temp_offset := -1447
  temp_scale := 100
  tp_mode_en := SUN4I_GPADC_CTRL1_TP_MODE_EN
  tp_adc_select := SUN4I_GPADC_CTRL1_TP_ADC_SELECT
  adc_chan_select := sun4i_gpadc_chan_select
  adc_chan_mask := SUN4I_GPADC_CTRL1_ADC_CHAN_MASK
  adc_channel := true
  ths_irq_thread := IrqThreadHook.dataIrqHandler
  ths_suspend := SuspendHook.sun4iSuspend
  ths_resume := ResumeHook.sun4iResume
  support_irq := true
  has_bus_clk := false
  has_bus_rst := false
  has_mod_clk := false
  temp_data_base := SUN4I_GPADC_TEMP_DATA
  sensor_count := 1
  supports_nvmem := false
  ths_irq_clear := 0

/-- sun6i_gpadc_data variant table. -/
def sun6i_gpadc_data : GpadcData where
  temp_offset := -1623
  temp_scale := 167
  tp_mode_en := SUN6I_GPADC_CTRL1_TP_MODE_EN
  tp_adc_select := SUN6I_GPADC_CTRL1_TP_ADC_SELECT
  adc_chan_select := sun6i_gpadc_chan_select
  adc_chan_mask := SUN6I_GPADC_CTRL1_ADC_CHAN_MASK
  adc_channel := true
  ths_irq_thread := IrqThreadHook.dataIrqHandler
  ths_suspend := SuspendHook.sun4iSuspend
  ths_resume := ResumeHook.sun4iResume
  support_irq := true
  has_bus_clk := false
  has_bus_rst := false
  has_mod_clk := false
  temp_data_base := SUN4I_GPADC_TEMP_DATA
  sensor_count := 1
  supports_nvmem := false
  ths_irq_clear := 0

/-- sun8i_a33_gpadc_data variant table (fields absent in the C initializer are
zero / false / null, as in C static initialization). -/
def sun8i_a33_gpadc_data : GpadcData where
  temp_offset := -1662
  temp_scale := 162
  tp_mode_en := SUN8I_A33_GPADC_CTRL1_CHOP_TEMP_EN
  tp_adc_select := 0
  adc_chan_select := fun _ => 0
  adc_chan_mask := 0
  adc_channel := false
  ths_irq_thread := IrqThreadHook.noThread
  ths_suspend := SuspendHook.sun4iSuspend
  ths_resume := ResumeHook.sun4iResume
  support_irq := false
  has_bus_clk := false
  has_bus_rst := false
  has_mod_clk := false
  temp_data_base := SUN4I_GPADC_TEMP_DATA
  sensor_count := 1
  supports_nvmem := false
  ths_irq_clear := 0

/-- sun8i_h3_ths_data variant table. -/
def sun8i_h3_ths_data : GpadcData where
  temp_offset := -1791
  temp_scale := -121
  tp_mode_en := 0
  tp_adc_select := 0
  adc_chan_select := fun _ => 0
  adc_chan_mask := 0
  adc_channel := false
  ths_irq_thread := IrqThreadHook.sunx8iH3IrqThread
  ths_suspend := SuspendHook.sun8iH3Suspend
  ths_resume := ResumeHook.sun8iH3Resume
  support_irq := true
  has_bus_clk := true
  has_bus_rst := true
  has_mod_clk := true
  temp_data_base := SUN8I_H3_THS_TDATA0
  sensor_count := 1
  supports_nvmem := true
  ths_irq_clear := SUN8I_H3_THS_INTS_TDATA_IRQ_0

/-- The five variant tables bound through sun4i_gpadc_of_id. -/
def variant_tables : List GpadcData :=
  [sun8i_a33_gpadc_data, sun4i_gpadc_data, sun5i_gpadc_data,
   sun6i_gpadc_data, sun8i_h3_ths_data]

/-- Mutable driver instance state visible to the measurement path and the
interrupt bridge (the relevant fields of struct sun4i_gpadc_iio).  irqDepth
is the kernel irq-core disable depth of the device interrupt: disable_irq
increments it, enable_irq decrements it. -/
structure MState where
  rm : Regmap
  temp_data : Nat
  adc_data : Nat
  irq_data_type : Nat
  irqDepth : Int

/-- Result of sun4i_prepare_for_irq: return code, updated state, event trace. -/
structure PrepResult where
  ret : Int
  st : MState
  trace : List Ev

/-- Result of sun4i_gpadc_read: return code, the value stored through the
caller's out-pointer (none when the code never writes `*val`), updated state,
event trace. -/
structure ReadResult where
  ret : Int
  val : Option Nat
  st : MState
  trace : List Ev

/-- sun4i_gpadc_irq_init: both arms of the source's if pick the same enable
mask, exactly as in the C (the function ignores the write's return code and
returns 0). -/
def sun4i_gpadc_irq_init (rm : Regmap) (idt : Nat) : Regmap × List Ev :=
  let reg := if idt = SUN4I_GPADC_IRQ_FIFO_DATA
             then SUN4I_GPADC_INT_FIFOC_TEMP_IRQ_EN
             else SUN4I_GPADC_INT_FIFOC_TEMP_IRQ_EN
  let w := regmap_write rm SUN4I_GPADC_INT_FIFOC reg
  (w.2, [Ev.rmwrite SUN4I_GPADC_INT_FIFOC reg])

/-- sun4i_prepare_for_irq: power-up claim, completion re-init, fifo flush,
latched-control read, mode/channel select write with the conditional 10 ms
channel-settle and 100 ms mode-settle delays, and interrupt-mask init. -/
def sun4i_prepare_for_irq (d : GpadcData) (s : MState) (channel irq : Nat) :
    PrepResult :=
  let tr0 : List Ev := [Ev.pmGetSync, Ev.reinitCompletion]
  let v0 := SUN4I_GPADC_INT_FIFOC_TP_FIFO_TRIG_LEVEL 1 |||
            SUN4I_GPADC_INT_FIFOC_TP_FIFO_FLUSH
  let w1 := regmap_write s.rm SUN4I_GPADC_INT_FIFOC v0
  let tr1 := tr0 ++ [Ev.rmwrite SUN4I_GPADC_INT_FIFOC v0]
  if w1.1 ≠ 0 then
    { ret := w1.1, st := { s with rm := w1.2 }, trace := tr1 }
  else
    let r := regmap_read w1.2 SUN4I_GPADC_CTRL1
    let tr2 := tr1 ++ [Ev.rmread SUN4I_GPADC_CTRL1]
    if r.1 ≠ 0 then
      { ret := r.1, st := { s with rm := w1.2 }, trace := tr2 }
    else
      let reg := r.2
      let branch :=
        if irq = SUN4I_GPADC_IRQ_FIFO_DATA then
          let v1 := d.tp_mode_en ||| d.tp_adc_select ||| d.adc_chan_select channel
          let w2 := regmap_write w1.2 SUN4I_GPADC_CTRL1 v1
          let dly : List Ev :=
            if (reg &&& d.adc_chan_mask) ≠ d.adc_chan_select channel
            then [Ev.mdelay 10] else []
          (w2.1, w2.2, [Ev.rmwrite SUN4I_GPADC_CTRL1 v1] ++ dly)
        else
          let w2 := regmap_write w1.2 SUN4I_GPADC_CTRL1 d.tp_mode_en
          (w2.1, w2.2, [Ev.rmwrite SUN4I_GPADC_CTRL1 d.tp_mode_en])
      let ret := branch.1
      let rm2 := branch.2.1
      let tr3 := tr2 ++ branch.2.2
      let ii :=
        if d.support_irq then sun4i_gpadc_irq_init rm2 s.irq_data_type
        else (rm2, [])
      let tr4 := tr3 ++ ii.2
      if ret ≠ 0 then
        { ret := ret, st := { s with rm := ii.1 }, trace := tr4 }
      else
        let dly2 : List Ev :=
          if (reg &&& d.tp_adc_select) ≠ d.tp_adc_select
          then [Ev.mdelay 100] else []
        { ret := 0, st := { s with rm := ii.1 }, trace := tr4 ++ dly2 }

/-- sun4i_gpadc_read: the serialized measure() operation.  The boolean
completionArrives abstracts whether a completion signal is observed before
the 1000 ms deadline of wait_for_completion_timeout.  enable_irq decrements
the interrupt disable depth, disable_irq increments it. -/
def sun4i_gpadc_read (d : GpadcData) (s : MState) (channel irq : Nat)
    (completionArrives : Bool) : ReadResult :=
  let s0 : MState := { s with irq_data_type := irq }
  let p := sun4i_prepare_for_irq d s0 channel irq
  if p.ret ≠ 0 then
    { ret := p.ret, val := none,
      st := { p.st with irqDepth := p.st.irqDepth + 1 },
      trace := Ev.lock :: p.trace ++
        [Ev.pmPutAutosuspend, Ev.disableIrq, Ev.unlock] }
  else
    let s2 : MState := { p.st with irqDepth := p.st.irqDepth - 1 }
    if completionArrives = false then
      { ret := -ETIMEDOUT, val := none,
        st := { s2 with irqDepth := s2.irqDepth + 1 },
        trace := Ev.lock :: p.trace ++
          [Ev.enableIrq, Ev.waitCompletion 1000 false,
           Ev.pmPutAutosuspend, Ev.disableIrq, Ev.unlock] }
    else
      let v := if irq = SUN4I_GPADC_IRQ_FIFO_DATA then s2.adc_data
               else s2.temp_data
      { ret := 0, val := some v,
        st := { s2 with irqDepth := s2.irqDepth + 1 },
        trace := Ev.lock :: p.trace ++
          [Ev.enableIrq, Ev.waitCompletion 1000 true, Ev.pmMarkLastBusy,
           Ev.pmPutAutosuspend, Ev.disableIrq, Ev.unlock] }

/-- sun4i_gpadc_adc_read: voltage measurement entry point. -/
def sun4i_gpadc_adc_read (d : GpadcData) (s : MState) (channel : Nat)
    (completionArrives : Bool) : ReadResult :=
  sun4i_gpadc_read d s channel SUN4I_GPADC_IRQ_FIFO_DATA completionArrives

/-- sun4i_gpadc_temp_read: temperature entry point; uses the interrupt
completion path when the variant has the dedicated voltage channel, else a
direct synchronous read of the per-sensor data register (whose transport code
the source ignores, returning 0 unconditionally). -/
def sun4i_gpadc_temp_read (d : GpadcData) (s : MState) (sensor : Nat)
    (completionArrives : Bool) : ReadResult :=
  if d.adc_channel then
    sun4i_gpadc_read d s 0 SUN4I_GPADC_IRQ_TEMP_DATA completionArrives
  else
    let r := regmap_read s.rm (d.temp_data_base + 0x4 * sensor)
    { ret := 0, val := some r.2, st := s,
      trace := [Ev.pmGetSync, Ev.rmread (d.temp_data_base + 0x4 * sensor),
                Ev.pmMarkLastBusy, Ev.pmPutAutosuspend] }

/-- sun4i_gpadc_temp_offset (the source always returns 0 and stores the
variant constant through the out-pointer; the stored value is returned). -/
def sun4i_gpadc_temp_offset (d : GpadcData) : Int := d.temp_offset

/-- sun4i_gpadc_temp_scale (same out-pointer collapsing as the offset). -/
def sun4i_gpadc_temp_scale (d : GpadcData) : Int := d.temp_scale

/-- sun4i_gpadc_get_temp: the thermal-zone read; a failing temp_read is
reported as -ETIMEDOUT, otherwise (val + offset) * scale. -/
def sun4i_gpadc_get_temp (d : GpadcData) (s : MState) (sensor : Nat)
    (completionArrives : Bool) : Int × Option Int :=
  let r := sun4i_gpadc_temp_read d s sensor completionArrives
  if r.ret ≠ 0 then (-ETIMEDOUT, none)
  else
    let val : Int := (r.val.getD 0 : Nat)
    let scale := sun4i_gpadc_temp_scale d
    let offset := sun4i_gpadc_temp_offset d
    (0, some ((val + offset) * scale))

/-- State read and written by the interrupt bridge (the data slots of struct
sun4i_gpadc_iio plus whether the completion has been signalled). -/
structure BridgeState where
  temp_data : Nat
  adc_data : Nat
  completion_done : Bool
  deriving DecidableEq, Repr

/-- sun4i_gpadc_data_irq_handler: reads the data register selected by
irq_data_type; the completion is signalled only when regmap_read returns 0
(the source guards complete() with the negated read return code); always
returns IRQ_HANDLED. -/
def sun4i_gpadc_data_irq_handler (rm : Regmap) (irq_data_type : Nat)
    (st : BridgeState) : Int × BridgeState :=
  if irq_data_type = SUN4I_GPADC_IRQ_FIFO_DATA then
    let r := regmap_read rm SUN4I_GPADC_DATA
    if r.1 = 0 then
      (IRQ_HANDLED, { st with adc_data := r.2, completion_done := true })
    else (IRQ_HANDLED, st)
  else
    let r := regmap_read rm SUN4I_GPADC_TEMP_DATA
    if r.1 = 0 then
      (IRQ_HANDLED, { st with temp_data := r.2, completion_done := true })
    else (IRQ_HANDLED, st)

/-- Modelled from the spec: IIO channel-info selector for the raw value
(kernel iio headers are not under src/). -/
def IIO_CHAN_INFO_RAW : Nat := 0

/-- Modelled from the spec: IIO channel-info selector for the scale. -/
def IIO_CHAN_INFO_SCALE : Nat := 2

/-- Modelled from the spec: IIO channel-info selector for the offset. -/
def IIO_CHAN_INFO_OFFSET : Nat := 3

/-- Modelled from the spec: IIO return tag for a plain integer value. -/
def IIO_VAL_INT : Int := 1

/-- Modelled from the spec: IIO return tag for an integer-plus-nano value. -/
def IIO_VAL_INT_PLUS_NANO : Int := 3

/-- Modelled from the spec: errno EINVAL (InvalidConfiguration). -/
def EINVAL : Int := 22

/-- IIO channel kind of an entry of the driver's channel table. -/
inductive IioChanType where
  | voltage : IioChanType
  | temp : IioChanType
  deriving DecidableEq, Repr

/-- One entry of the driver's iio_chan_spec table. -/
structure IioChanSpec where
  type : IioChanType
  channel : Nat
  deriving DecidableEq, Repr

/-- sun4i_gpadc_channels: four voltage channels and one temperature channel. -/
def sun4i_gpadc_channels : List IioChanSpec :=
  [{ type := IioChanType.voltage, channel := 0 },
   { type := IioChanType.voltage, channel := 1 },
   { type := IioChanType.voltage, channel := 2 },
   { type := IioChanType.voltage, channel := 3 },
   { type := IioChanType.temp, channel := 0 }]

/-- Result of sun4i_gpadc_read_raw: the IIO value-type tag or negative errno,
and the two out-parameters (none when the code never writes them). -/
structure RawResult where
  ret : Int
  val : Option Int
  val2 : Option Nat
  deriving DecidableEq, Repr

/-- sun4i_gpadc_read_raw: the switch on the info mask, with the voltage scale
returned as the fixed-point pair (0, 732421875) nano. -/
def sun4i_gpadc_read_raw (d : GpadcData) (s : MState) (chan : IioChanSpec)
    (completionArrives : Bool) (mask : Nat) : RawResult :=
  if mask = IIO_CHAN_INFO_OFFSET then
    { ret := IIO_VAL_INT, val := some (sun4i_gpadc_temp_offset d), val2 := none }
  else if mask = IIO_CHAN_INFO_RAW then
    let r := if chan.type = IioChanType.voltage
             then sun4i_gpadc_adc_read d s chan.channel completionArrives
             else sun4i_gpadc_temp_read d s 0 completionArrives
    if r.ret ≠ 0 then { ret := r.ret, val := none, val2 := none }
    else { ret := IIO_VAL_INT, val := some ((r.val.getD 0 : Nat) : Int),
           val2 := none }
  else if mask = IIO_CHAN_INFO_SCALE then
    if chan.type = IioChanType.voltage then
      { ret := IIO_VAL_INT_PLUS_NANO, val := some 0, val2 := some 732421875 }
    else
      { ret := IIO_VAL_INT, val := some (sun4i_gpadc_temp_scale d),
        val2 := none }
  else
    { ret := -EINVAL, val := none, val2 := none }

/-- Assemble a 32-bit word from four bytes, mirroring the reinterpretation of
the 8-byte nvmem blob as two u32 words (§3 CalibrationBlob: little/native
endian). -/
def le32 (b0 b1 b2 b3 : Nat) : Nat :=
  b0 + 256 * b1 + 65536 * b2 + 16777216 * b3

/-- Outcome of nvmem_cell_get followed by nvmem_cell_read at probe time:
either a negative errno from cell lookup, or the raw byte blob. -/
def CellOutcome : Type := Except Int (List Nat)

/-- The calibration fragment of sun4i_gpadc_probe_dt: on a variant with nvmem
support, a defer error aborts the bind with that code; any other cell error
is ignored; a blob of length other than 8 only logs an error and leaves the
calibration words unchanged; a blob of exactly 8 bytes is split in order into
the two calibration words.  Returns the bind code and the calibration words. -/
def sun4i_gpadc_probe_dt_calibration (d : GpadcData) (cal : Nat × Nat)
    (cell : CellOutcome) : Int × (Nat × Nat) :=
  if d.supports_nvmem then
    match cell with
    | Except.error e => if e = -EPROBE_DEFER then (e, cal) else (0, cal)
    | Except.ok blob =>
      if blob.length ≠ 8 then (0, cal)
      else
        match blob with
        | [b0, b1, b2, b3, b4, b5, b6, b7] =>
          (0, (le32 b0 b1 b2 b3, le32 b4 b5 b6 b7))
        | _ => (0, cal)
  else (0, cal)

/-- The fields of struct sun4i_gpadc_iio that the suspend/resume hooks see:
the bound variant table and the calibration words. -/
structure ThsInfo where
  data : GpadcData
  calibration_data : Nat × Nat

/-- sun8i_h3_calibrate: the calibration-word writes are commented out in the
source, so the register state is returned unchanged. -/
def sun8i_h3_calibrate (info : ThsInfo) (s : RegState) : RegState := s

/-- sun4i_ths_resume: the four unconditional register writes re-establishing
clock divider, acquisition time, mode enable, filter and sampling period. -/
def sun4i_ths_resume (info : ThsInfo) (s : RegState) : RegState :=
  let s1 := regWrite32 s SUN4I_GPADC_CTRL0
    (SUN4I_GPADC_CTRL0_ADC_CLK_DIVIDER 2 ||| SUN4I_GPADC_CTRL0_FS_DIV 7 |||
     SUN4I_GPADC_CTRL0_T_ACQ 63)
  let s2 := regWrite32 s1 SUN4I_GPADC_CTRL1 info.data.tp_mode_en
  let s3 := regWrite32 s2 SUN4I_GPADC_CTRL3
    (SUN4I_GPADC_CTRL3_FILTER_EN ||| SUN4I_GPADC_CTRL3_FILTER_TYPE 1)
  regWrite32 s3 SUN4I_GPADC_TPR
    (SUN4I_GPADC_TPR_TEMP_ENABLE ||| SUN4I_GPADC_TPR_TEMP_PERIOD 800)

/-- sun8i_h3_ths_resume: calibration first, then the five blind writes, then
the read-modify-write that sets the sensor-0 temperature-sense enable bit on
top of the just-read control2 value. -/
def sun8i_h3_ths_resume (info : ThsInfo) (s : RegState) : RegState :=
  let s0 := sun8i_h3_calibrate info s
  let s1 := regWrite32 s0 SUN8I_H3_THS_CTRL0 (SUN4I_GPADC_CTRL0_T_ACQ 0xff)
  let s2 := regWrite32 s1 SUN8I_H3_THS_CTRL2 (SUN8I_H3_THS_ACQ1 0x3f)
  let s3 := regWrite32 s2 SUN8I_H3_THS_STAT SUN8I_H3_THS_INTS_TDATA_IRQ_0
  let s4 := regWrite32 s3 SUN8I_H3_THS_FILTER
    (SUN4I_GPADC_CTRL3_FILTER_EN ||| SUN4I_GPADC_CTRL3_FILTER_TYPE 0x2)
  let s5 := regWrite32 s4 SUN8I_H3_THS_INTC
    (SUN8I_H3_THS_INTC_TDATA_IRQ_EN0 ||| SUN8I_H3_THS_TEMP_PERIOD 0x55)
  let value := s5 SUN8I_H3_THS_CTRL2
  regWrite32 s5 SUN8I_H3_THS_CTRL2 (SUN8I_H3_THS_TEMP_SENSE_EN0 ||| value)

/-- Dispatch of the ths_resume function pointer stored in the variant table,
as sun4i_gpadc_runtime_resume does through info->data->ths_resume. -/
def ths_resume_apply (info : ThsInfo) (s : RegState) : RegState :=
  match info.data.ths_resume with
  | ResumeHook.sun4iResume => sun4i_ths_resume info s
  | ResumeHook.sun8iH3Resume => sun8i_h3_ths_resume info s

/-- An error-free regmap over a given register file. -/
def rmOk (r : RegState) : Regmap :=
  { regs := r, wErr := fun _ _ => 0, rErr := fun _ => 0 }

/-- The all-zero register file. -/
def zeroRegs : RegState := fun _ => 0

/-- A device instance at rest over a given register file: data slots clear,
interrupt disabled once (as left by probe), fault-free transport. -/
def restState (r : RegState) : MState :=
  { rm := rmOk r, temp_data := 0, adc_data := 0, irq_data_type := 0,
    irqDepth := 1 }

/-- A device instance at rest whose temperature data slot holds 2000 (as if
the interrupt bridge had stored that raw code). -/
def tempSampleState : MState :=
  { rm := rmOk zeroRegs, temp_data := 2000, adc_data := 0, irq_data_type := 0,
    irqDepth := 1 }

/-- A regmap whose write to the interrupt/fifo-control register fails with
-EIO, all other transactions clean: a transport fault during preparation. -/
def rmWriteFault : Regmap :=
  { regs := zeroRegs,
    wErr := fun a _ => if a = SUN4I_GPADC_INT_FIFOC then -EIO_errno else 0,
    rErr := fun _ => 0 }

/-- A device instance at rest whose transport faults the fifo-control write. -/
def writeFaultState : MState :=
  { rm := rmWriteFault, temp_data := 0, adc_data := 0, irq_data_type := 0,
    irqDepth := 1 }

/-- A regmap whose read of the voltage-data register fails with -EIO, all
other transactions clean: a transport fault on the interrupt path. -/
def rmReadFault : Regmap :=
  { regs := zeroRegs,
    wErr := fun _ _ => 0,
    rErr := fun a => if a = SUN4I_GPADC_DATA then -EIO_errno else 0 }

theorem prepare_preserves_irqDepth (d : GpadcData) (s : MState)
    (channel irq : Nat) :
    (sun4i_prepare_for_irq d s channel irq).st.irqDepth = s.irqDepth := by
  simp only [sun4i_prepare_for_irq]
  repeat' split
  all_goals rfl

theorem prepare_no_wait (d : GpadcData) (s : MState) (channel irq t : Nat)
    (a : Bool) :
    Ev.waitCompletion t a ∉ (sun4i_prepare_for_irq d s channel irq).trace := by
  simp only [sun4i_prepare_for_irq, sun4i_gpadc_irq_init]
  repeat' split
  all_goals simp

theorem prepare_no_enable (d : GpadcData) (s : MState) (channel irq : Nat) :
    Ev.enableIrq ∉ (sun4i_prepare_for_irq d s channel irq).trace := by
  simp only [sun4i_prepare_for_irq, sun4i_gpadc_irq_init]
  repeat' split
  all_goals simp

/-- C1 counterexample: with a transport fault on the voltage-data register
read and a voltage request pending, the interrupt handler does NOT post the
completion signal — refuting the claim that a failed register read still
posts a signal so the waiting request resolves. -/
theorem sun4i_irq_handler_read_failure_no_signal_cex :
    rmReadFault.rErr SUN4I_GPADC_DATA ≠ 0 ∧
    (sun4i_gpadc_data_irq_handler rmReadFault SUN4I_GPADC_IRQ_FIFO_DATA
      { temp_data := 0, adc_data := 0,
        completion_done := false }).2.completion_done = false := by
  constructor
  · decide
  · rfl

/-- C1 (amended): the interrupt handler always returns IRQ_HANDLED, but it
posts the completion signal only when the read of the data register selected
by the pending request succeeds; when that read fails, no signal is posted
(and the data slots are untouched), so the waiting request runs on to its
timeout. -/
theorem sun4i_irq_handler_signal_iff_read_ok (rm : Regmap) (idt : Nat)
    (st : BridgeState) :
    (sun4i_gpadc_data_irq_handler rm idt st).1 = IRQ_HANDLED ∧
    ((sun4i_gpadc_data_irq_handler rm idt st).2.completion_done = true ↔
      (st.completion_done = true ∨
       rm.rErr (if idt = SUN4I_GPADC_IRQ_FIFO_DATA then SUN4I_GPADC_DATA
                else SUN4I_GPADC_TEMP_DATA) = 0)) ∧
    (rm.rErr (if idt = SUN4I_GPADC_IRQ_FIFO_DATA then SUN4I_GPADC_DATA
              else SUN4I_GPADC_TEMP_DATA) ≠ 0 →
      (sun4i_gpadc_data_irq_handler rm idt st).2 = st) := by
  unfold sun4i_gpadc_data_irq_handler regmap_read
  by_cases h : idt = SUN4I_GPADC_IRQ_FIFO_DATA <;>
    simp [h] <;>
    by_cases hr : rm.rErr (if h' : idt = SUN4I_GPADC_IRQ_FIFO_DATA
      then SUN4I_GPADC_DATA else SUN4I_GPADC_TEMP_DATA) = 0 <;>
    simp_all

/-- C5: for every variant table and every starting register state, applying
the variant's resume hook twice yields the same register state as applying
it once. -/
theorem ths_resume_idempotent (info : ThsInfo) (s : RegState) :
    ths_resume_apply info (ths_resume_apply info s) = ths_resume_apply info s := by
  cases h : info.data.ths_resume <;>
    · funext a
      simp only [ths_resume_apply, h, sun4i_ths_resume, sun8i_h3_ths_resume,
        sun8i_h3_calibrate, regWrite32]
      split_ifs <;> simp_all

/-- C6 counterexample: starting from a register state in which the sun8i-h3
control2 register has the unrelated bit 1 set, resume() clears that bit — the
blind acquisition-constant write earlier in the sequence discards bits that
were set before resume() was called, refuting the claim that such bits are
preserved. -/
theorem sun8i_h3_resume_clears_prior_ctrl2_bit_cex :
    ((regWrite32 zeroRegs SUN8I_H3_THS_CTRL2 2) SUN8I_H3_THS_CTRL2 &&& 2 = 2) ∧
    ((sun8i_h3_ths_resume { data := sun8i_h3_ths_data, calibration_data := (0, 0) }
        (regWrite32 zeroRegs SUN8I_H3_THS_CTRL2 2))
      SUN8I_H3_THS_CTRL2 &&& 2 = 0) := by
  constructor
  · decide
  · decide

/-- C6 (amended): on the sun8i-h3 variant, resume() first applies the
calibration step, which is a no-op on the register state, and then enables
the temperature-sense bit by a read-modify-write; but because an earlier step
of the same sequence blindly overwrites control2 with the acquisition
constant, the final control2 value is a constant — the sense-enable bit or-ed
onto the acquisition constant — independent of whatever bits were set before
resume() was called. -/
theorem sun8i_h3_resume_ctrl2_constant (info : ThsInfo) (s : RegState) :
    sun8i_h3_calibrate info s = s ∧
    (sun8i_h3_ths_resume info s) SUN8I_H3_THS_CTRL2 =
      (SUN8I_H3_THS_TEMP_SENSE_EN0 ||| SUN8I_H3_THS_ACQ1 0x3f) := by
  refine ⟨rfl, ?_⟩
  simp only [sun8i_h3_ths_resume, sun8i_h3_calibrate, regWrite32,
    SUN8I_H3_THS_CTRL0, SUN8I_H3_THS_CTRL2, SUN8I_H3_THS_STAT,
    SUN8I_H3_THS_FILTER, SUN8I_H3_THS_INTC, SUN8I_H3_THS_TEMP_SENSE_EN0,
    SUN8I_H3_THS_ACQ1]
  norm_num
  decide

/-- C2: whenever preparation succeeds but no completion signal is observed
within the 1000 ms deadline, measure() returns -ETIMEDOUT, writes nothing to
the caller's output, disarms the device interrupt before releasing the lock
(the trace ends disable-irq then unlock), restores the interrupt disable
depth to its starting value, and releases the power claim on this path just
as on the success path. -/
theorem sun4i_gpadc_read_timeout_path (d : GpadcData) (s : MState)
    (channel irq : Nat)
    (h : (sun4i_prepare_for_irq d { s with irq_data_type := irq }
            channel irq).ret = 0) :
    (sun4i_gpadc_read d s channel irq false).ret = -ETIMEDOUT ∧
    (sun4i_gpadc_read d s channel irq false).val = none ∧
    (sun4i_gpadc_read d s channel irq false).st.irqDepth = s.irqDepth ∧
    (sun4i_gpadc_read d s channel irq false).trace =
      Ev.lock :: (sun4i_prepare_for_irq d { s with irq_data_type := irq }
          channel irq).trace ++
        [Ev.enableIrq, Ev.waitCompletion 1000 false,
         Ev.pmPutAutosuspend, Ev.disableIrq, Ev.unlock] ∧
    Ev.pmPutAutosuspend ∈ (sun4i_gpadc_read d s channel irq false).trace ∧
    Ev.pmPutAutosuspend ∈ (sun4i_gpadc_read d s channel irq true).trace := by
  have hd := prepare_preserves_irqDepth d { s with irq_data_type := irq }
    channel irq
  simp [sun4i_gpadc_read, h, hd]

/-- C2 witness: a concrete temperature request on the sun4i variant over a
fault-free all-zero register file, with the completion never arriving. -/
theorem sun4i_gpadc_read_timeout_path_witness :
    (sun4i_prepare_for_irq sun4i_gpadc_data
        { restState zeroRegs with irq_data_type := SUN4I_GPADC_IRQ_TEMP_DATA }
        0 SUN4I_GPADC_IRQ_TEMP_DATA).ret = 0 ∧
    ((sun4i_gpadc_read sun4i_gpadc_data (restState zeroRegs) 0
        SUN4I_GPADC_IRQ_TEMP_DATA false).ret = -ETIMEDOUT ∧
     (sun4i_gpadc_read sun4i_gpadc_data (restState zeroRegs) 0
        SUN4I_GPADC_IRQ_TEMP_DATA false).val = none ∧
     (sun4i_gpadc_read sun4i_gpadc_data (restState zeroRegs) 0
        SUN4I_GPADC_IRQ_TEMP_DATA false).st.irqDepth =
          (restState zeroRegs).irqDepth ∧
     (sun4i_gpadc_read sun4i_gpadc_data (restState zeroRegs) 0
        SUN4I_GPADC_IRQ_TEMP_DATA false).trace =
       Ev.lock :: (sun4i_prepare_for_irq sun4i_gpadc_data
           { restState zeroRegs with
             irq_data_type := SUN4I_GPADC_IRQ_TEMP_DATA }
           0 SUN4I_GPADC_IRQ_TEMP_DATA).trace ++
         [Ev.enableIrq, Ev.waitCompletion 1000 false,
          Ev.pmPutAutosuspend, Ev.disableIrq, Ev.unlock] ∧
     Ev.pmPutAutosuspend ∈ (sun4i_gpadc_read sun4i_gpadc_data
        (restState zeroRegs) 0 SUN4I_GPADC_IRQ_TEMP_DATA false).trace ∧
     Ev.pmPutAutosuspend ∈ (sun4i_gpadc_read sun4i_gpadc_data
        (restState zeroRegs) 0 SUN4I_GPADC_IRQ_TEMP_DATA true).trace) :=
  ⟨by decide,
   sun4i_gpadc_read_timeout_path sun4i_gpadc_data (restState zeroRegs) 0
     SUN4I_GPADC_IRQ_TEMP_DATA (by decide)⟩

/-- C10: when preparation fails inside measure(), the call returns the
preparation error, never waits on the completion channel and never arms the
interrupt, writes nothing to the caller's output, still releases the power
claim and the lock, and executes disable_irq without a matching enable_irq —
raising the interrupt disable depth by exactly one. -/
theorem sun4i_gpadc_read_prepare_failure_path (d : GpadcData) (s : MState)
    (channel irq : Nat) (ca : Bool)
    (hne : (sun4i_prepare_for_irq d { s with irq_data_type := irq }
             channel irq).ret ≠ 0) :
    (sun4i_gpadc_read d s channel irq ca).ret =
      (sun4i_prepare_for_irq d { s with irq_data_type := irq }
        channel irq).ret ∧
    (sun4i_gpadc_read d s channel irq ca).val = none ∧
    (sun4i_gpadc_read d s channel irq ca).st.irqDepth = s.irqDepth + 1 ∧
    (sun4i_gpadc_read d s channel irq ca).trace =
      Ev.lock :: (sun4i_prepare_for_irq d { s with irq_data_type := irq }
          channel irq).trace ++
        [Ev.pmPutAutosuspend, Ev.disableIrq, Ev.unlock] ∧
    (∀ t a, Ev.waitCompletion t a ∉
      (sun4i_gpadc_read d s channel irq ca).trace) ∧
    Ev.enableIrq ∉ (sun4i_gpadc_read d s channel irq ca).trace ∧
    Ev.disableIrq ∈ (sun4i_gpadc_read d s channel irq ca).trace ∧
    Ev.pmPutAutosuspend ∈ (sun4i_gpadc_read d s channel irq ca).trace ∧
    Ev.unlock ∈ (sun4i_gpadc_read d s channel irq ca).trace := by
  have hd := prepare_preserves_irqDepth d { s with irq_data_type := irq }
    channel irq
  have hw := fun t a => prepare_no_wait d { s with irq_data_type := irq }
    channel irq t a
  have he := prepare_no_enable d { s with irq_data_type := irq } channel irq
  simp [sun4i_gpadc_read, hne, hd]
  exact ⟨fun t => ⟨hw t false, hw t true⟩, he⟩

/-- C10 witness: a concrete request on the sun4i variant whose transport
faults the fifo-control write, so preparation fails with -EIO. -/
theorem sun4i_gpadc_read_prepare_failure_path_witness :
    (sun4i_prepare_for_irq sun4i_gpadc_data
        { writeFaultState with irq_data_type := SUN4I_GPADC_IRQ_TEMP_DATA }
        0 SUN4I_GPADC_IRQ_TEMP_DATA).ret ≠ 0 ∧
    ((sun4i_gpadc_read sun4i_gpadc_data writeFaultState 0
        SUN4I_GPADC_IRQ_TEMP_DATA true).ret =
      (sun4i_prepare_for_irq sun4i_gpadc_data
        { writeFaultState with irq_data_type := SUN4I_GPADC_IRQ_TEMP_DATA }
        0 SUN4I_GPADC_IRQ_TEMP_DATA).ret ∧
     (sun4i_gpadc_read sun4i_gpadc_data writeFaultState 0
        SUN4I_GPADC_IRQ_TEMP_DATA true).val = none ∧
     (sun4i_gpadc_read sun4i_gpadc_data writeFaultState 0
        SUN4I_GPADC_IRQ_TEMP_DATA true).st.irqDepth =
          writeFaultState.irqDepth + 1 ∧
     (sun4i_gpadc_read sun4i_gpadc_data writeFaultState 0
        SUN4I_GPADC_IRQ_TEMP_DATA true).trace =
       Ev.lock :: (sun4i_prepare_for_irq sun4i_gpadc_data
           { writeFaultState with
             irq_data_type := SUN4I_GPADC_IRQ_TEMP_DATA }
           0 SUN4I_GPADC_IRQ_TEMP_DATA).trace ++
         [Ev.pmPutAutosuspend, Ev.disableIrq, Ev.unlock] ∧
     (∀ t a, Ev.waitCompletion t a ∉
       (sun4i_gpadc_read sun4i_gpadc_data writeFaultState 0
         SUN4I_GPADC_IRQ_TEMP_DATA true).trace) ∧
     Ev.enableIrq ∉ (sun4i_gpadc_read sun4i_gpadc_data writeFaultState 0
        SUN4I_GPADC_IRQ_TEMP_DATA true).trace ∧
     Ev.disableIrq ∈ (sun4i_gpadc_read sun4i_gpadc_data writeFaultState 0
        SUN4I_GPADC_IRQ_TEMP_DATA true).trace ∧
     Ev.pmPutAutosuspend ∈ (sun4i_gpadc_read sun4i_gpadc_data
        writeFaultState 0 SUN4I_GPADC_IRQ_TEMP_DATA true).trace ∧
     Ev.unlock ∈ (sun4i_gpadc_read sun4i_gpadc_data writeFaultState 0
        SUN4I_GPADC_IRQ_TEMP_DATA true).trace) :=
  ⟨by decide,
   sun4i_gpadc_read_prepare_failure_path sun4i_gpadc_data writeFaultState 0
     SUN4I_GPADC_IRQ_TEMP_DATA true (by decide)⟩

/-- C3 counterexample: with the latched control1 state in voltage-ADC mode
(mode-enable and ADC-select bits set, value 24) a temperature request is a
mode switch, yet preparation inserts no settling delay at all — refuting the
claim that a mode switch always incurs the ≥100 ms settle; and with the
latched state already in touchscreen/temperature mode (value 16) a repeated
temperature request — same mode, same channel — does incur the 100 ms delay,
refuting the claim that same-mode/same-channel repeats incur neither. -/
theorem sun4i_prepare_mode_switch_delay_cex :
    Ev.mdelay 100 ∉ (sun4i_prepare_for_irq sun4i_gpadc_data
      (restState (regWrite32 zeroRegs SUN4I_GPADC_CTRL1 24)) 0
      SUN4I_GPADC_IRQ_TEMP_DATA).trace ∧
    Ev.mdelay 10 ∉ (sun4i_prepare_for_irq sun4i_gpadc_data
      (restState (regWrite32 zeroRegs SUN4I_GPADC_CTRL1 24)) 0
      SUN4I_GPADC_IRQ_TEMP_DATA).trace ∧
    Ev.mdelay 100 ∈ (sun4i_prepare_for_irq sun4i_gpadc_data
      (restState (regWrite32 zeroRegs SUN4I_GPADC_CTRL1 16)) 0
      SUN4I_GPADC_IRQ_TEMP_DATA).trace := by
  refine ⟨by decide, by decide, by decide⟩

/-- C3 (amended): relative to the latched control1 value read at the start of
a fault-free preparation, the ≥100 ms settle is inserted exactly when the
latched ADC-select bit is not set (that is, whenever the hardware was last in
touchscreen/temperature mode, regardless of the requested mode), and the
≥10 ms settle is inserted exactly when the request is a voltage request whose
requested channel-select encoding differs from the latched one. -/
theorem sun4i_prepare_delay_characterization (d : GpadcData) (s : MState)
    (channel irq : Nat)
    (hw : ∀ a v, s.rm.wErr a v = 0) (hr : ∀ a, s.rm.rErr a = 0) :
    (Ev.mdelay 100 ∈ (sun4i_prepare_for_irq d s channel irq).trace ↔
      (s.rm.regs SUN4I_GPADC_CTRL1 &&& d.tp_adc_select) ≠ d.tp_adc_select) ∧
    (Ev.mdelay 10 ∈ (sun4i_prepare_for_irq d s channel irq).trace ↔
      (irq = SUN4I_GPADC_IRQ_FIFO_DATA ∧
       (s.rm.regs SUN4I_GPADC_CTRL1 &&& d.adc_chan_mask) ≠
         d.adc_chan_select channel)) := by
  have hreg : (regWrite32 s.rm.regs SUN4I_GPADC_INT_FIFOC
      (SUN4I_GPADC_INT_FIFOC_TP_FIFO_TRIG_LEVEL 1 |||
       SUN4I_GPADC_INT_FIFOC_TP_FIFO_FLUSH)) SUN4I_GPADC_CTRL1 =
      s.rm.regs SUN4I_GPADC_CTRL1 := by
    simp [regWrite32, SUN4I_GPADC_INT_FIFOC, SUN4I_GPADC_CTRL1]
  simp only [sun4i_prepare_for_irq, sun4i_gpadc_irq_init, regmap_write,
    regmap_read, hw, hr]
  by_cases hirq : irq = SUN4I_GPADC_IRQ_FIFO_DATA <;>
    by_cases h100 : (s.rm.regs SUN4I_GPADC_CTRL1 &&& d.tp_adc_select) =
      d.tp_adc_select <;>
    by_cases h10 : (s.rm.regs SUN4I_GPADC_CTRL1 &&& d.adc_chan_mask) =
      d.adc_chan_select channel <;>
    by_cases hsi : d.support_irq = true <;>
    simp [hirq, h100, h10, hsi, hreg, hw, hr]

/-- C3 witness: the amended characterization instantiated on the sun4i
variant over a fault-free register file latched in touchscreen mode. -/
theorem sun4i_prepare_delay_characterization_witness :
    (∀ a v, (restState (regWrite32 zeroRegs SUN4I_GPADC_CTRL1 16)).rm.wErr
        a v = 0) ∧
    (∀ a, (restState (regWrite32 zeroRegs SUN4I_GPADC_CTRL1 16)).rm.rErr
        a = 0) ∧
    ((Ev.mdelay 100 ∈ (sun4i_prepare_for_irq sun4i_gpadc_data
        (restState (regWrite32 zeroRegs SUN4I_GPADC_CTRL1 16)) 0
        SUN4I_GPADC_IRQ_TEMP_DATA).trace ↔
      ((restState (regWrite32 zeroRegs SUN4I_GPADC_CTRL1 16)).rm.regs
          SUN4I_GPADC_CTRL1 &&& sun4i_gpadc_data.tp_adc_select) ≠
        sun4i_gpadc_data.tp_adc_select) ∧
     (Ev.mdelay 10 ∈ (sun4i_prepare_for_irq sun4i_gpadc_data
        (restState (regWrite32 zeroRegs SUN4I_GPADC_CTRL1 16)) 0
        SUN4I_GPADC_IRQ_TEMP_DATA).trace ↔
      (SUN4I_GPADC_IRQ_TEMP_DATA = SUN4I_GPADC_IRQ_FIFO_DATA ∧
       ((restState (regWrite32 zeroRegs SUN4I_GPADC_CTRL1 16)).rm.regs
           SUN4I_GPADC_CTRL1 &&& sun4i_gpadc_data.adc_chan_mask) ≠
         sun4i_gpadc_data.adc_chan_select 0))) :=
  ⟨fun a v => rfl, fun a => rfl,
   sun4i_prepare_delay_characterization sun4i_gpadc_data
     (restState (regWrite32 zeroRegs SUN4I_GPADC_CTRL1 16)) 0
     SUN4I_GPADC_IRQ_TEMP_DATA (fun a v => rfl) (fun a => rfl)⟩

/-- C4 counterexample: a voltage request for channel 4 — unsupported, the
variant exposes voltage channels 0..3 only — is not rejected: measure()
returns 0, not -EINVAL, and a control1 register write is performed (encoding
channel 4 through the channel mask), refuting the claim that such requests
are rejected with InvalidConfiguration before any register write. -/
theorem sun4i_gpadc_read_channel4_not_rejected_cex :
    (sun4i_gpadc_read sun4i_gpadc_data (restState zeroRegs) 4
      SUN4I_GPADC_IRQ_FIFO_DATA true).ret = 0 ∧
    (sun4i_gpadc_read sun4i_gpadc_data (restState zeroRegs) 4
      SUN4I_GPADC_IRQ_FIFO_DATA true).ret ≠ -EINVAL ∧
    Ev.rmwrite SUN4I_GPADC_CTRL1 28 ∈
      (sun4i_gpadc_read sun4i_gpadc_data (restState zeroRegs) 4
        SUN4I_GPADC_IRQ_FIFO_DATA true).trace := by
  refine ⟨by decide, by decide, by decide⟩

/-- C4 (amended): sun4i_gpadc_read itself performs no channel/mode
validation: on a fault-free transport, a voltage request for ANY channel
(including channel ≥ 4) proceeds to write the control1 register with the
channel encoded through the variant's channel-select function and completes
with return code 0; unsupported channels are excluded only by the fixed
channel table handed to the framework, whose voltage entries are exactly
channels 0, 1, 2, 3. -/
theorem sun4i_gpadc_read_no_channel_validation (d : GpadcData) (s : MState)
    (channel : Nat)
    (hw : ∀ a v, s.rm.wErr a v = 0) (hr : ∀ a, s.rm.rErr a = 0) :
    (sun4i_gpadc_read d s channel SUN4I_GPADC_IRQ_FIFO_DATA true).ret = 0 ∧
    Ev.rmwrite SUN4I_GPADC_CTRL1
        (d.tp_mode_en ||| d.tp_adc_select ||| d.adc_chan_select channel) ∈
      (sun4i_gpadc_read d s channel SUN4I_GPADC_IRQ_FIFO_DATA true).trace ∧
    (sun4i_gpadc_channels.filter
        (fun c => decide (c.type = IioChanType.voltage))).map
      IioChanSpec.channel = [0, 1, 2, 3] := by
  refine ⟨?_, ?_, by decide⟩ <;>
  · simp only [sun4i_gpadc_read, sun4i_prepare_for_irq, sun4i_gpadc_irq_init,
      regmap_write, regmap_read, hw, hr]
    by_cases h10 : ((regWrite32 s.rm.regs SUN4I_GPADC_INT_FIFOC
        (SUN4I_GPADC_INT_FIFOC_TP_FIFO_TRIG_LEVEL 1 |||
         SUN4I_GPADC_INT_FIFOC_TP_FIFO_FLUSH)) SUN4I_GPADC_CTRL1 &&&
        d.adc_chan_mask) = d.adc_chan_select channel <;>
    by_cases h100 : ((regWrite32 s.rm.regs SUN4I_GPADC_INT_FIFOC
        (SUN4I_GPADC_INT_FIFOC_TP_FIFO_TRIG_LEVEL 1 |||
         SUN4I_GPADC_INT_FIFOC_TP_FIFO_FLUSH)) SUN4I_GPADC_CTRL1 &&&
        d.tp_adc_select) = d.tp_adc_select <;>
    by_cases hsi : d.support_irq = true <;>
    simp [h10, h100, hsi, hw, hr, SUN4I_GPADC_IRQ_FIFO_DATA]

/-- C4 witness: the amended no-validation theorem instantiated at the
unsupported channel 4 on the sun4i variant over a fault-free register file. -/
theorem sun4i_gpadc_read_no_channel_validation_witness :
    (∀ a v, (restState zeroRegs).rm.wErr a v = 0) ∧
    (∀ a, (restState zeroRegs).rm.rErr a = 0) ∧
    ((sun4i_gpadc_read sun4i_gpadc_data (restState zeroRegs) 4
        SUN4I_GPADC_IRQ_FIFO_DATA true).ret = 0 ∧
     Ev.rmwrite SUN4I_GPADC_CTRL1
         (sun4i_gpadc_data.tp_mode_en ||| sun4i_gpadc_data.tp_adc_select |||
          sun4i_gpadc_data.adc_chan_select 4) ∈
       (sun4i_gpadc_read sun4i_gpadc_data (restState zeroRegs) 4
         SUN4I_GPADC_IRQ_FIFO_DATA true).trace ∧
     (sun4i_gpadc_channels.filter
         (fun c => decide (c.type = IioChanType.voltage))).map
       IioChanSpec.channel = [0, 1, 2, 3]) :=
  ⟨fun a v => rfl, fun a => rfl,
   sun4i_gpadc_read_no_channel_validation sun4i_gpadc_data
     (restState zeroRegs) 4 (fun a v => rfl) (fun a => rfl)⟩

/-- C7: for every variant table, every sensor index and every raw code r
produced by the measurement path, the thermal read reports exactly
(r + temperature_offset) * temperature_scale with the variant's constants —
the formula shape is the same for all variants, only the constants change. -/
theorem sun4i_gpadc_get_temp_linear (d : GpadcData) (s : MState)
    (sensor : Nat) (ca : Bool) (r : Nat)
    (h0 : (sun4i_gpadc_temp_read d s sensor ca).ret = 0)
    (hv : (sun4i_gpadc_temp_read d s sensor ca).val = some r) :
    sun4i_gpadc_get_temp d s sensor ca =
      (0, some (((r : Int) + d.temp_offset) * d.temp_scale)) := by
  simp [sun4i_gpadc_get_temp, sun4i_gpadc_temp_scale,
    sun4i_gpadc_temp_offset, h0, hv]

/-- C7 witness: a temperature measurement on the sun4i variant whose data
slot holds raw code 2000 yields (2000 - 1932) * 133 = 9044. -/
theorem sun4i_gpadc_get_temp_linear_witness :
    (sun4i_gpadc_temp_read sun4i_gpadc_data tempSampleState 0 true).ret = 0 ∧
    (sun4i_gpadc_temp_read sun4i_gpadc_data tempSampleState 0 true).val =
      some 2000 ∧
    sun4i_gpadc_get_temp sun4i_gpadc_data tempSampleState 0 true =
      (0, some (((2000 : Int) + sun4i_gpadc_data.temp_offset) *
        sun4i_gpadc_data.temp_scale)) :=
  ⟨by decide, by decide,
   sun4i_gpadc_get_temp_linear sun4i_gpadc_data tempSampleState 0 true 2000
     (by decide) (by decide)⟩

/-- C8: for every voltage channel below 4, the scale exposed by read_raw is
the fixed-point pair (integer 0, nano 732421875) tagged INT_PLUS_NANO, and
that constant is exactly 3000/4096 millivolts per raw code unit:
(0·10⁹ + 732421875) · 4096 = 3000 · 10⁹. -/
theorem sun4i_gpadc_read_raw_voltage_scale (d : GpadcData) (s : MState)
    (ca : Bool) (c : Nat) (hc : c < 4) :
    sun4i_gpadc_read_raw d s { type := IioChanType.voltage, channel := c }
        ca IIO_CHAN_INFO_SCALE =
      { ret := IIO_VAL_INT_PLUS_NANO, val := some 0,
        val2 := some 732421875 } ∧
    (0 * 10 ^ 9 + 732421875) * 4096 = 3000 * 10 ^ 9 := by
  constructor
  · simp [sun4i_gpadc_read_raw, IIO_CHAN_INFO_SCALE, IIO_CHAN_INFO_OFFSET,
      IIO_CHAN_INFO_RAW]
  · norm_num

/-- C8 witness: the voltage-scale theorem instantiated at channel 0 on the
sun4i variant. -/
theorem sun4i_gpadc_read_raw_voltage_scale_witness :
    (0 : Nat) < 4 ∧
    (sun4i_gpadc_read_raw sun4i_gpadc_data (restState zeroRegs)
        { type := IioChanType.voltage, channel := 0 } true
        IIO_CHAN_INFO_SCALE =
      { ret := IIO_VAL_INT_PLUS_NANO, val := some 0,
        val2 := some 732421875 } ∧
     (0 * 10 ^ 9 + 732421875) * 4096 = 3000 * 10 ^ 9) :=
  ⟨by decide,
   sun4i_gpadc_read_raw_voltage_scale sun4i_gpadc_data (restState zeroRegs)
     true 0 (by decide)⟩

/-- C9: at bind time on a variant with a calibration store, a blob of exactly
8 bytes is accepted and split in order into the two 32-bit calibration words,
and a blob of any other length leaves the calibration words unchanged while
the bind continues (return code 0, no abort). -/
theorem sun4i_gpadc_probe_dt_calibration_split (d : GpadcData)
    (cal : Nat × Nat) (hn : d.supports_nvmem = true) :
    (∀ b0 b1 b2 b3 b4 b5 b6 b7 : Nat,
      sun4i_gpadc_probe_dt_calibration d cal
          (Except.ok [b0, b1, b2, b3, b4, b5, b6, b7]) =
        (0, (le32 b0 b1 b2 b3, le32 b4 b5 b6 b7))) ∧
    (∀ blob : List Nat, blob.length ≠ 8 →
      sun4i_gpadc_probe_dt_calibration d cal (Except.ok blob) = (0, cal)) := by
  constructor
  · intro b0 b1 b2 b3 b4 b5 b6 b7
    simp [sun4i_gpadc_probe_dt_calibration, hn]
  · intro blob hb
    simp [sun4i_gpadc_probe_dt_calibration, hn, hb]

/-- C9 witness: the calibration-split theorem on the sun8i-h3 variant, which
supports the nvmem calibration store. -/
theorem sun4i_gpadc_probe_dt_calibration_split_witness :
    sun8i_h3_ths_data.supports_nvmem = true ∧
    ((∀ b0 b1 b2 b3 b4 b5 b6 b7 : Nat,
       sun4i_gpadc_probe_dt_calibration sun8i_h3_ths_data (0, 0)
           (Except.ok [b0, b1, b2, b3, b4, b5, b6, b7]) =
         (0, (le32 b0 b1 b2 b3, le32 b4 b5 b6 b7))) ∧
     (∀ blob : List Nat, blob.length ≠ 8 →
       sun4i_gpadc_probe_dt_calibration sun8i_h3_ths_data (0, 0)
           (Except.ok blob) = (0, (0, 0)))) :=
  ⟨rfl, sun4i_gpadc_probe_dt_calibration_split sun8i_h3_ths_data (0, 0) rfl⟩

/-- C1 witness: the amended handler characterization instantiated on a
transport that faults the voltage-data read, with a voltage request pending
and the completion not yet signalled. -/
theorem sun4i_irq_handler_signal_iff_read_ok_witness :
    (sun4i_gpadc_data_irq_handler rmReadFault SUN4I_GPADC_IRQ_FIFO_DATA
      { temp_data := 0, adc_data := 0,
        completion_done := false }).1 = IRQ_HANDLED ∧
    ((sun4i_gpadc_data_irq_handler rmReadFault SUN4I_GPADC_IRQ_FIFO_DATA
        { temp_data := 0, adc_data := 0,
          completion_done := false }).2.completion_done = true ↔
      ((false : Bool) = true ∨
       rmReadFault.rErr
         (if SUN4I_GPADC_IRQ_FIFO_DATA = SUN4I_GPADC_IRQ_FIFO_DATA
          then SUN4I_GPADC_DATA else SUN4I_GPADC_TEMP_DATA) = 0)) ∧
    (rmReadFault.rErr
        (if SUN4I_GPADC_IRQ_FIFO_DATA = SUN4I_GPADC_IRQ_FIFO_DATA
         then SUN4I_GPADC_DATA else SUN4I_GPADC_TEMP_DATA) ≠ 0 →
      (sun4i_gpadc_data_irq_handler rmReadFault SUN4I_GPADC_IRQ_FIFO_DATA
        { temp_data := 0, adc_data := 0, completion_done := false }).2 =
        { temp_data := 0, adc_data := 0, completion_done := false }) :=
  sun4i_irq_handler_signal_iff_read_ok rmReadFault SUN4I_GPADC_IRQ_FIFO_DATA
    { temp_data := 0, adc_data := 0, completion_done := false }
